import Mathlib

/-!
# Windows menu binding: `src/api/menu/menu_win.cc`

The translation unit defines seven member functions of `api::Menu`

    void Menu::Create(const base::DictionaryValue& option) { }
    void Menu::Destroy() { }
    void Menu::SetTitle(const std::string& title) { }
    void Menu::Append(MenuItem* menu_item) { }
    void Menu::Insert(MenuItem* menu_item, int pos) { }
    void Menu::Remove(MenuItem* menu_item, int pos) { }
    void Menu::Popup(int x, int y, content::Shell* shell) { }

each with an empty body.  A call is embedded as a computation over an explicit
program state (`World`) that may fail with a `Fault`; the state holds the
receiver menu and the heap objects that the pointer arguments may refer to.
An empty C++ body is the computation `pure ()`.
-/

set_option linter.unusedVariables false

/-- Address of a heap object.  A C++ pointer is an `Option Addr`: `none` is the
null pointer, `some a` may or may not refer to a live object of the state. -/
abbrev Addr := Nat

namespace base

/-- Values stored in an option dictionary (`base::Value` of the embedding
browser library, which is not part of this repository). -/
inductive Value where
  | null
  | boolean (b : Bool)
  | integer (i : Int)
  | string (s : String)
  | list (xs : List Value)
  | dictionary (entries : List (String × Value))

/-- The `base::DictionaryValue` argument of `Menu::Create`: keys with values. -/
abbrev DictionaryValue := List (String × Value)

end base

namespace content

/-- The host window (`content::Shell`) a popup would be shown in; `popups`
counts the context menus currently displayed over it. -/
structure Shell where
  title : String
  popups : Nat
  deriving DecidableEq, Repr

end content

namespace api

/-- A menu entry (`api::MenuItem`), the pointee of the `menu_item` arguments. -/
structure MenuItem where
  label : String
  enabled : Bool
  deriving DecidableEq, Repr

/-- Modelled from the spec: the class declaration `menu.h` is not among the
sources, so the receiver carries what the spec names as observable about a
menu: its title, its item list, whether a native menu exists and whether it is
displayed. -/
structure Menu where
  title : String
  items : List Addr
  nativeMenu : Bool
  displayed : Bool
  deriving DecidableEq, Repr

/-- Everything a call could observe or change: the receiver (`this`), the
menu items on the heap and the host windows on the heap. -/
structure World where
  self : Menu
  menuItems : List (Addr × MenuItem)
  shells : List (Addr × content.Shell)
  deriving DecidableEq, Repr

/-- Ways a C++ call can fail to return normally. -/
inductive Fault where
  | exception (what : String)
  | nullDereference
  | invalidAddress (a : Addr)
  | indexOutOfRange (pos : Int)
  deriving DecidableEq, Repr

/-- A member function body: state in, either a fault or a value and state out. -/
abbrev Exec := StateT World (Except Fault)

/-- Embedding of `void Menu::Create(const base::DictionaryValue& option) { }`. -/
def Menu.Create (option : base.DictionaryValue) : Exec Unit :=
  pure ()

/-- Embedding of `void Menu::Destroy() { }`. -/
def Menu.Destroy : Exec Unit :=
  pure ()

/-- Embedding of `void Menu::SetTitle(const std::string& title) { }`. -/
def Menu.SetTitle (title : String) : Exec Unit :=
  pure ()

/-- Embedding of `void Menu::Append(MenuItem* menu_item) { }`. -/
def Menu.Append (menu_item : Option Addr) : Exec Unit :=
  pure ()

/-- Embedding of `void Menu::Insert(MenuItem* menu_item, int pos) { }`.  The
C++ `int` is embedded in `Int`, which contains every 32-bit value. -/
def Menu.Insert (menu_item : Option Addr) (pos : Int) : Exec Unit :=
  pure ()

/-- Embedding of `void Menu::Remove(MenuItem* menu_item, int pos) { }`. -/
def Menu.Remove (menu_item : Option Addr) (pos : Int) : Exec Unit :=
  pure ()

/-- Embedding of `void Menu::Popup(int x, int y, content::Shell* shell) { }`. -/
def Menu.Popup (x y : Int) (shell : Option Addr) : Exec Unit :=
  pure ()

/-- One call of a member function of `api::Menu`, with its arguments. -/
inductive MenuCall where
  | create (option : base.DictionaryValue)
  | destroy
  | setTitle (title : String)
  | append (menu_item : Option Addr)
  | insert (menu_item : Option Addr) (pos : Int)
  | remove (menu_item : Option Addr) (pos : Int)
  | popup (x y : Int) (shell : Option Addr)

/-- Dispatch of a call to the member function it names. -/
def invoke : MenuCall → Exec Unit
  | .create option => Menu.Create option
  | .destroy => Menu.Destroy
  | .setTitle title => Menu.SetTitle title
  | .append menu_item => Menu.Append menu_item
  | .insert menu_item pos => Menu.Insert menu_item pos
  | .remove menu_item pos => Menu.Remove menu_item pos
  | .popup x y shell => Menu.Popup x y shell

/-- A finite sequence of calls, performed in order; a fault stops the sequence. -/
def invokeAll : List MenuCall → Exec Unit
  | [] => pure ()
  | c :: cs => do
    invoke c
    invokeAll cs

/-- The state a call leaves behind, when it returns. -/
def finalState (r : Except Fault (Unit × World)) : Option World :=
  match r with
  | .ok (_, w) => some w
  | .error _ => none

/-- A call returns normally: its result is `ok` with the unit value, and it is
no error. -/
def ReturnsNormally (r : Except Fault (Unit × World)) : Prop :=
  (∃ w, r = .ok ((), w)) ∧ ∀ e, r ≠ .error e

/-- One step: some call of one of the seven member functions returns, taking
the state `w` to the state `w2`. -/
def Step (w w2 : World) : Prop :=
  ∃ c : MenuCall, (invoke c).run w = .ok ((), w2)

/-- States reachable from `w0` by finitely many steps. -/
inductive Reachable (w0 : World) : World → Prop where
  | start : Reachable w0 w0
  | next {w w2 : World} : Reachable w0 w → Step w w2 → Reachable w0 w2

/-! ## Auxiliary facts -/

theorem invoke_run (c : MenuCall) (w : World) :
    (invoke c).run w = .ok ((), w) := by
  cases c <;> rfl

theorem invokeAll_run (cs : List MenuCall) (w : World) :
    (invokeAll cs).run w = .ok ((), w) := by
  induction cs with
  | nil => rfl
  | cons c cs ih =>
    show (invoke c >>= fun _ => invokeAll cs).run w = _
    rw [StateT.run_bind, invoke_run]
    exact ih

theorem step_eq {w w2 : World} (h : Step w w2) : w2 = w := by
  obtain ⟨c, hc⟩ := h
  rw [invoke_run] at hc
  injection hc with hc
  injection hc with _ hw
  exact hw.symm

theorem reachable_eq {w0 w : World} (h : Reachable w0 w) : w = w0 := by
  induction h with
  | start => rfl
  | next _ hs ih => rw [step_eq hs, ih]

/-! ## The claims -/

namespace Menu

/-- C1: for every state and every argument, each of the seven member functions
`Create`, `Destroy`, `SetTitle`, `Append`, `Insert`, `Remove` and `Popup`
leaves behind exactly the state it was called in: the receiver (title, item
list, native menu present, displayed), every menu item and every host window
are as before the call. -/
theorem methods_frame (w : World) (option : base.DictionaryValue) (title : String)
    (menu_item : Option Addr) (pos x y : Int) (shell : Option Addr) :
    finalState ((Menu.Create option).run w) = some w
    ∧ finalState (Menu.Destroy.run w) = some w
    ∧ finalState ((Menu.SetTitle title).run w) = some w
    ∧ finalState ((Menu.Append menu_item).run w) = some w
    ∧ finalState ((Menu.Insert menu_item pos).run w) = some w
    ∧ finalState ((Menu.Remove menu_item pos).run w) = some w
    ∧ finalState ((Menu.Popup x y shell).run w) = some w :=
  ⟨rfl, rfl, rfl, rfl, rfl, rfl, rfl⟩

/-- C2: for every state and every argument, each of the seven member functions
returns normally: the result is `ok` carrying the unit value, and it is never
an error. -/
theorem methods_return_ok (w : World) (option : base.DictionaryValue) (title : String)
    (menu_item : Option Addr) (pos x y : Int) (shell : Option Addr) :
    ReturnsNormally ((Menu.Create option).run w)
    ∧ ReturnsNormally (Menu.Destroy.run w)
    ∧ ReturnsNormally ((Menu.SetTitle title).run w)
    ∧ ReturnsNormally ((Menu.Append menu_item).run w)
    ∧ ReturnsNormally ((Menu.Insert menu_item pos).run w)
    ∧ ReturnsNormally ((Menu.Remove menu_item pos).run w)
    ∧ ReturnsNormally ((Menu.Popup x y shell).run w) := by
  have ok : ∀ r : Except Fault (Unit × World), r = .ok ((), w) → ReturnsNormally r := by
    intro r hr
    subst hr
    exact ⟨⟨w, rfl⟩, fun e h => Except.noConfusion h⟩
  exact ⟨ok _ rfl, ok _ rfl, ok _ rfl, ok _ rfl, ok _ rfl, ok _ rfl, ok _ rfl⟩

/-- C3: for every initial state and every finite sequence of calls of the seven
member functions with arbitrary arguments, the sequence returns and the state
after it is the initial state; the initial state is the only state reachable
under the step relation; in particular `Create`, then `Append`, then `Popup`
leaves the native menu flag, the item list and the displayed flag as they
were. -/
theorem sequence_noop (w : World) (calls : List MenuCall) :
    (invokeAll calls).run w = .ok ((), w)
    ∧ (∀ w2 : World, Reachable w w2 ↔ w2 = w)
    ∧ (∀ (option : base.DictionaryValue) (menu_item : Option Addr) (x y : Int)
        (shell : Option Addr),
        (finalState ((invokeAll [.create option, .append menu_item, .popup x y shell]).run w)).map
            (fun v => (v.self.nativeMenu, v.self.items, v.self.displayed))
          = some (w.self.nativeMenu, w.self.items, w.self.displayed)) := by
  refine ⟨invokeAll_run calls w, ?_, ?_⟩
  · intro w2
    constructor
    · exact reachable_eq
    · intro h
      subst h
      exact Reachable.start
  · intro option menu_item x y shell
    rfl

/-- C4: each member function ignores its arguments: in every state, two calls
of the same member function with any two argument tuples give the same result
and the same resulting state. -/
theorem arguments_ignored (w : World) (option₁ option₂ : base.DictionaryValue)
    (title₁ title₂ : String) (item₁ item₂ : Option Addr) (pos₁ pos₂ : Int)
    (x₁ y₁ x₂ y₂ : Int) (shell₁ shell₂ : Option Addr) :
    (Menu.Create option₁).run w = (Menu.Create option₂).run w
    ∧ (Menu.SetTitle title₁).run w = (Menu.SetTitle title₂).run w
    ∧ (Menu.Append item₁).run w = (Menu.Append item₂).run w
    ∧ (Menu.Insert item₁ pos₁).run w = (Menu.Insert item₂ pos₂).run w
    ∧ (Menu.Remove item₁ pos₁).run w = (Menu.Remove item₂ pos₂).run w
    ∧ (Menu.Popup x₁ y₁ shell₁).run w = (Menu.Popup x₂ y₂ shell₂).run w :=
  ⟨rfl, rfl, rfl, rfl, rfl, rfl⟩

/-- C5: validity of the arguments plays no role: for every integer `pos`
(negative or past the end of the item list included) and every `menu_item`
pointer (null, dangling or live), `Insert` and `Remove` return normally with
the state unchanged; so do `Append` with a null `menu_item` and `Popup` with
any integers `x`, `y` and a null `shell`. -/
theorem invalid_arguments_noop (w : World) (menu_item : Option Addr) (pos x y : Int) :
    (Menu.Insert menu_item pos).run w = .ok ((), w)
    ∧ (Menu.Remove menu_item pos).run w = .ok ((), w)
    ∧ (Menu.Append none).run w = .ok ((), w)
    ∧ (Menu.Popup x y none).run w = .ok ((), w) :=
  ⟨rfl, rfl, rfl, rfl⟩

end Menu

end api
